import Mathlib

/-!
# Verification development for diamante-block/go

Shallow embedding of

* `txnbuild/transaction.go`: `SetDefaultFee`, `setTransactionFee`,
  `TransactionFee`, `SignHashX`;
* `services/friendbot/internal/account.go`: `Account.IncrementSequenceNumber`;
* `services/aurora/internal/ingest/main.go`: the data model, `NewCursor`,
  `NewSession`.

Conventions. Go machine integers are `Nat`/`Int` with explicit wrap-around
(`% 2^32`, `wrapInt64`); the width of Go `int`, 32 or 64 bits by target, is a
parameter where a result depends on it (`toInt`). A Go `error` is `Option String` (`none` is `nil`).
A nil-able pointer to an object that is owned by exactly one parent is an
`Option` of the object; pointers whose identity matters (`*db.Session`,
`*System`, `*Session`) are addresses into an explicit store.
-/

namespace Txnbuild

/-! ## Package xdr (type declarations used by txnbuild) -/

/-- Go `byte`. -/
abbrev Byte := UInt8

/-- The type xdr.DecoratedSignature: a 4-byte hint and the signature bytes. -/
structure DecoratedSignature where
  Hint : List Byte
  Signature : List Byte
deriving DecidableEq, Repr

/-- The type xdr.Operation; the body is kept as an uninterpreted code. -/
structure XdrOperation where
  Body : Nat
  SourceAccount : Option String
deriving DecidableEq, Repr

/-- The type xdr.TimeBounds. -/
structure XdrTimeBounds where
  MinTime : Nat
  MaxTime : Nat
deriving DecidableEq, Repr

/-- The type xdr.Transaction. `Fee` is an xdr.Uint32, `SeqNum` an int64. -/
structure XdrTransaction where
  SourceAccount : String
  Fee : Nat
  SeqNum : Int
  TimeBounds : Option XdrTimeBounds
  Memo : Option String
  Operations : List XdrOperation
deriving DecidableEq, Repr

/-- The type xdr.TransactionEnvelope. -/
structure TransactionEnvelope where
  Tx : XdrTransaction
  Signatures : List DecoratedSignature
deriving DecidableEq, Repr

/-- The zero value `xdr.Transaction{}`. -/
def XdrTransaction.zero : XdrTransaction :=
  { SourceAccount := "", Fee := 0, SeqNum := 0, TimeBounds := none, Memo := none,
    Operations := [] }

/-- The zero value `xdr.TransactionEnvelope{}`. -/
def TransactionEnvelope.zero : TransactionEnvelope :=
  { Tx := XdrTransaction.zero, Signatures := [] }

/-- Modelled from the spec: xdr.Signature.XDRMaxSize of package xdr (absent
from src/). The bound is the one SignHashX names in its own error message,
"preimage cannnot be more than 64 bytes". -/
def Signature.XDRMaxSize (_sig : List Byte) : Nat := 64

/-! ## txnbuild.Transaction -/

/-- The type txnbuild.Timebounds. -/
structure Timebounds where
  MinTime : Int
  MaxTime : Int
  wasBuilt : Bool
deriving DecidableEq, Repr

/-- The type txnbuild.Transaction. `SourceAccount` is the account id and
sequence number behind the `Account` interface value (`none` is a nil
interface); `Operations` are kept as uninterpreted codes; `BaseFee` is a
uint32; `xdrEnvelope` is a nil-able pointer. -/
structure Transaction where
  SourceAccount : Option (String × Int)
  Operations : List Nat
  BaseFee : Nat
  Memo : Option String
  Timebounds : Timebounds
  Network : String
  xdrTransaction : XdrTransaction
  xdrEnvelope : Option TransactionEnvelope
deriving DecidableEq, Repr

/-- Conversion `xdr.Uint32(v)` of a Go `int`: truncation to 32 bits. A Go
`int` wraps modulo `2^32` or `2^64`, both multiples of `2^32`, so on either
width the truncation of the (possibly wrapped) `int` product equals the
truncation of the exact product. -/
def toUint32 (v : Nat) : Nat := v % 2 ^ 32

/-- The method `(tx *Transaction) setTransactionFee() error`: the updated
transaction and the returned error. -/
def Transaction.setTransactionFee (tx : Transaction) : Transaction × Option String :=
  if tx.BaseFee = 0 then
    (tx, some "base fee can not be zero")
  else
    ({ tx with xdrTransaction :=
        { tx.xdrTransaction with
          Fee := toUint32 (tx.BaseFee * tx.xdrTransaction.Operations.length) } },
     none)

/-- The method `(tx *Transaction) SetDefaultFee()`: `Except.error` is the
`panic(err)` branch, `Except.ok` the transaction after a normal return. -/
def Transaction.SetDefaultFee (tx : Transaction) : Except String Transaction :=
  let DefaultBaseFee : Nat := 100
  let tx1 := if tx.BaseFee = 0 then { tx with BaseFee := DefaultBaseFee } else tx
  match tx1.setTransactionFee with
  | (_, some err) => Except.error err
  | (tx2, none) => Except.ok tx2

/-- Conversion `int(v)` of a uint32 value to a Go `int` that is `intBits` bits
wide (32 or 64, by target): two's complement wrap-around. On a 64-bit `int`
every uint32 keeps its value; on a 32-bit `int` values from `2^31` on become
negative. -/
def toInt (intBits : Nat) (v : Nat) : Int :=
  ((v : Int) + 2 ^ (intBits - 1)) % 2 ^ intBits - 2 ^ (intBits - 1)

/-- The method `(tx *Transaction) TransactionFee() int` on a target whose
`int` is `intBits` bits wide: the updated transaction and the returned fee,
`int(tx.xdrTransaction.Fee)`. -/
def Transaction.TransactionFee (intBits : Nat) (tx : Transaction) : Transaction × Int :=
  match tx.setTransactionFee with
  | (tx1, some _) => (tx1, 0)
  | (tx1, none) => (tx1, toInt intBits tx1.xdrTransaction.Fee)

/-- The method `(tx *Transaction) SignHashX(preimage []byte) error`, over the
hash function `sum256` standing for `sha256.Sum256` of the Go standard
library (its result is a `[32]byte`). Returns the updated transaction and the
error. `copy(hint[:], preimageHash[28:])` copies the four bytes 28..31. -/
def Transaction.SignHashX (sum256 : List Byte → Mathlib.Vector Byte 32)
    (tx : Transaction) (preimage : List Byte) : Transaction × Option String :=
  let env : TransactionEnvelope :=
    match tx.xdrEnvelope with
    | none => { TransactionEnvelope.zero with Tx := tx.xdrTransaction }
    | some e => e
  let tx1 := { tx with xdrEnvelope := some env }
  if preimage.length > Signature.XDRMaxSize preimage then
    (tx1, some "preimage cannnot be more than 64 bytes")
  else
    let preimageHash := sum256 preimage
    let hint : List Byte := (preimageHash.toList.drop 28).take 4
    let sig : DecoratedSignature := { Hint := hint, Signature := preimage }
    ({ tx1 with xdrEnvelope := some { env with Signatures := env.Signatures ++ [sig] } },
     none)

/-- The signatures of the transaction's envelope (none while the envelope
pointer is nil). -/
def Transaction.signatures (tx : Transaction) : List DecoratedSignature :=
  match tx.xdrEnvelope with
  | none => []
  | some e => e.Signatures

end Txnbuild

namespace Friendbot

/-- Addition on Go `int64` wraps around in two's complement. -/
def wrapInt64 (x : Int) : Int := (x + 2 ^ 63) % 2 ^ 64 - 2 ^ 63

/-- The type friendbot `internal.Account`; `Sequence` is an
xdr.SequenceNumber, an int64. -/
structure Account where
  AccountID : String
  Sequence : Int
deriving DecidableEq, Repr

/-- The method `(a Account) GetAccountID() string`. -/
def Account.GetAccountID (a : Account) : String := a.AccountID

/-- The method `(a Account) IncrementSequenceNumber() (xdr.SequenceNumber, error)`.
The receiver is declared by value, so the body runs on a copy `recv` of the
caller's account. The result is: the caller's account after the call, the
returned sequence number, the returned error. -/
def Account.IncrementSequenceNumber (a : Account) : Account × Int × Option String :=
  let recv : Account := a
  let recv : Account := { recv with Sequence := wrapInt64 (recv.Sequence + 1) }
  (a, recv.Sequence, none)

end Friendbot

namespace Ingest

/-! ## Package ingest: data model of `main.go` -/

/-- Modelled from the spec: the type db.Session of support/db (absent from
src/), a connection to a store: the database it talks to and the transaction
it is bound to, if any. -/
structure DbSession where
  DB : Nat
  tx : Option Nat
deriving DecidableEq, Repr

/-- A `*db.Session`: `none` is nil, `some a` the address of a connection in
the store. -/
abbrev DbPtr := Option Nat

/-- The type TableName. -/
abbrev TableName := String

/-- The type Config. -/
structure Config where
  EnableAssetStats : Bool
  IngestFailedTransactions : Bool
  CursorName : String
deriving DecidableEq, Repr

/-- The type IngesterMetrics; a `metrics.Timer` interface value is a timer
handle, `none` when nil. -/
structure IngesterMetrics where
  ClearLedgerTimer : Option Nat
  IngestLedgerTimer : Option Nat
  LoadLedgerTimer : Option Nat
deriving DecidableEq, Repr

/-- A `*IngesterMetrics`. The only IngesterMetrics objects of the package are
the `Metrics` fields of Systems, so a non-nil pointer `some i` is `&i.Metrics`
for the System at address `i`. -/
abbrev MetricsPtr := Option Nat

/-- The type LedgerBundle; the core rows are kept as uninterpreted codes. -/
structure LedgerBundle where
  Sequence : Int
  Header : Nat
  TransactionFees : List Nat
  Transactions : List Nat
deriving DecidableEq, Repr

/-- The type BatchInsertBuilder. `initOnce` holds whether the `sync.Once` has
fired; row values and the squirrel builder are uninterpreted. -/
structure BatchInsertBuilder where
  TableName : TableName
  Columns : List String
  initOnce : Bool
  rows : List (List Nat)
  insertBuilder : Nat
deriving DecidableEq, Repr

/-- The type AssetStats. A Go map is an association list, `none` when nil. -/
structure AssetStats where
  CoreSession : DbPtr
  HistorySession : DbPtr
  batchInsertBuilder : Option BatchInsertBuilder
  toUpdate : Option (List (String × Nat))
  initOnce : Bool
deriving DecidableEq, Repr

/-- The type Ingestion. -/
structure Ingestion where
  DB : DbPtr
  builders : Option (List (TableName × BatchInsertBuilder))
deriving DecidableEq, Repr

/-- The type Cursor. `FirstLedger`, `LastLedger` and `lg` are int32. -/
structure Cursor where
  FirstLedger : Int
  LastLedger : Int
  CoreDB : DbPtr
  Metrics : MetricsPtr
  AssetStats : Option AssetStats
  Err : Option String
  Name : String
  lg : Int
  tx : Int
  op : Int
  data : Option LedgerBundle
deriving DecidableEq, Repr

/-- The type Session. -/
structure Session where
  Config : Config
  Cursor : Option Cursor
  Ingestion : Option Ingestion
  Network : String
  DiamNetCoreURL : String
  ClearExisting : Bool
  SkipCursorUpdate : Bool
  Metrics : MetricsPtr
  AssetStats : Option AssetStats
  Err : Option String
  Ingested : Int
deriving DecidableEq, Repr

/-- The type System. `lock` holds whether the mutex is locked; `current` is a
`*Session`, the address of a Session in the store or nil. -/
structure System where
  Config : Config
  AuroraDB : DbPtr
  CoreDB : DbPtr
  Metrics : IngesterMetrics
  Network : String
  DiamNetCoreURL : String
  SkipCursorUpdate : Bool
  HistoryRetentionCount : Nat
  IngestFailedTransactions : Bool
  lock : Bool
  current : Option Nat
deriving DecidableEq, Repr

/-- The store: the connections, Systems and Sessions that exist, each at the
address that is its index. -/
structure World where
  dbs : List DbSession
  systems : List System
  sessions : List Session
deriving DecidableEq, Repr

/-- An int32 value. -/
def isInt32 (x : Int) : Prop := -(2 : Int) ^ 31 ≤ x ∧ x < (2 : Int) ^ 31

instance (x : Int) : Decidable (isInt32 x) := by unfold isInt32; infer_instance

/-- Modelled from the spec: the method db.Session.Clone of support/db (absent
from src/): "clones ... connections fresh", that is, a new connection object
at an address not in use, talking to the same database as the receiver and
bound to no transaction; the receiver is untouched. `none` is the nil-pointer
dereference of cloning a connection that does not exist. -/
def DbSession.Clone (w : World) (p : DbPtr) : Option (World × DbPtr) :=
  match p with
  | none => none
  | some a =>
    match w.dbs[a]? with
    | none => none
    | some s => some ({ w with dbs := w.dbs ++ [{ DB := s.DB, tx := none }] }, some w.dbs.length)

/-- The function `NewCursor(first, last int32, i *System) *Cursor`. The fields
the composite literal leaves out take their zero values. `none` is the
dereference of a System that does not exist. -/
def NewCursor (w : World) (first last : Int) (i : Nat) : Option Cursor :=
  match w.systems[i]? with
  | none => none
  | some sys =>
    some { FirstLedger := first, LastLedger := last, CoreDB := sys.CoreDB,
           Name := sys.Config.CursorName, Metrics := some i,
           AssetStats := none, Err := none, lg := 0, tx := 0, op := 0, data := none }

/-- The function `NewSession(i *System) *Session`: the store after the call
and the address of the new Session. `none` is a nil-pointer dereference. -/
def NewSession (w : World) (i : Nat) : Option (World × Nat) :=
  match w.systems[i]? with
  | none => none
  | some sys =>
    match DbSession.Clone w sys.CoreDB with
    | none => none
    | some (w1, cdb) =>
      match DbSession.Clone w1 sys.AuroraDB with
      | none => none
      | some (w2, hdb) =>
        let s : Session :=
          { Config := sys.Config,
            Ingestion := some { DB := hdb, builders := none },
            Network := sys.Network,
            DiamNetCoreURL := sys.DiamNetCoreURL,
            SkipCursorUpdate := sys.SkipCursorUpdate,
            Metrics := some i,
            AssetStats := some { CoreSession := cdb, HistorySession := hdb,
                                 batchInsertBuilder := none, toUpdate := none,
                                 initOnce := false },
            Cursor := none, ClearExisting := false, Err := none, Ingested := 0 }
        some ({ w2 with sessions := w2.sessions ++ [s] }, w2.sessions.length)

/-- Dereference of a `*IngesterMetrics`: the metrics the pointer refers to. -/
def World.metricsAt (w : World) (p : MetricsPtr) : Option IngesterMetrics :=
  match p with
  | none => none
  | some i => (w.systems[i]?).map (fun sys => sys.Metrics)

/-! ## Run exclusion -/

/-- Outcome of an attempt to start a Session on a System: the busy condition,
or the address of the Session that was started. -/
inductive StartOutcome where
  | busy
  | started (s : Nat)
deriving DecidableEq, Repr

/-- Modelled from the spec: the System operation that starts a Session. Only
its declarations, the fields `System.lock` and `System.current`, are in src/.
"Starting a Session requires acquiring a run-exclusion resource; if one is
already held, the attempt fails immediately with a busy condition", a
"non-blocking try-acquire". The resource is held while `current` points to a
Session; a successful start makes the new Session of `NewSession` current.
The mutex `lock` only guards this test-and-set and is free again when the
operation returns, so the operation, taken as one step, leaves it as it is.
`none` is a nil-pointer dereference. -/
def System.StartSession (w : World) (i : Nat) : Option (World × StartOutcome) :=
  match w.systems[i]? with
  | none => none
  | some sys =>
    match sys.current with
    | some _ => some (w, StartOutcome.busy)
    | none =>
      match NewSession w i with
      | none => none
      | some (w1, p) =>
        some ({ w1 with systems := w1.systems.set i { sys with current := some p } },
              StartOutcome.started p)

/-- Modelled from the spec: the release of the run-exclusion resource when the
current Session terminates (the resource is "scoped to one Session's
lifetime"). -/
def System.FinishSession (w : World) (i : Nat) : Option World :=
  match w.systems[i]? with
  | none => none
  | some sys => some { w with systems := w.systems.set i { sys with current := none } }

/-- What a caller does to one System: try to start a Session, or let the
running Session terminate. -/
inductive Event where
  | start
  | finish
deriving DecidableEq, Repr

/-- A run of events on one System: the store, and the Sessions that were
started and have not terminated (kept apart from `System.current`). -/
structure Run where
  world : World
  active : List Nat
deriving DecidableEq, Repr

/-- One event on the System at address `i`. A start that succeeds adds the new
Session to the active ones; a finish terminates the current Session. -/
def Run.step (i : Nat) (r : Run) : Event → Run
  | Event.start =>
    match System.StartSession r.world i with
    | some (w, StartOutcome.started p) => { world := w, active := p :: r.active }
    | some (w, StartOutcome.busy) => { world := w, active := r.active }
    | none => r
  | Event.finish =>
    match r.world.systems[i]? with
    | none => r
    | some sys =>
      match sys.current, System.FinishSession r.world i with
      | some p, some w => { world := w, active := r.active.erase p }
      | _, _ => r

/-- A sequence of events on the System at address `i`. -/
def Run.exec (i : Nat) (r : Run) (evs : List Event) : Run :=
  evs.foldl (Run.step i) r

end Ingest

/-! # Concrete inputs and auxiliary predicates -/

namespace Txnbuild

/-- A transaction with the largest uint32 base fee and two operations in its
XDR transaction. -/
def maxFeeTx : Transaction :=
  { SourceAccount := none, Operations := [0, 0], BaseFee := 4294967295, Memo := none,
    Timebounds := { MinTime := 0, MaxTime := 0, wasBuilt := false }, Network := "",
    xdrTransaction :=
      { XdrTransaction.zero with
        Operations := [{ Body := 0, SourceAccount := none }, { Body := 0, SourceAccount := none }] },
    xdrEnvelope := none }

/-- A transaction with base fee 100 and two operations in its XDR transaction. -/
def smallFeeTx : Transaction := { maxFeeTx with BaseFee := 100 }

/-- A transaction whose base fee is not set. -/
def zeroFeeTx : Transaction := { maxFeeTx with BaseFee := 0 }

/-- A transaction with the largest uint32 base fee and one operation in its
XDR transaction. -/
def maxFeeOneOpTx : Transaction :=
  { maxFeeTx with
    xdrTransaction :=
      { XdrTransaction.zero with Operations := [{ Body := 0, SourceAccount := none }] } }

end Txnbuild

namespace Ingest

/-- A System as `New` makes it, over the connections at addresses 0 (core) and
1 (aurora). -/
def exampleSystem : System :=
  { Config := { EnableAssetStats := true, IngestFailedTransactions := false,
                CursorName := "AURORA" },
    AuroraDB := some 1, CoreDB := some 0,
    Metrics := { ClearLedgerTimer := some 0, IngestLedgerTimer := some 1,
                 LoadLedgerTimer := some 2 },
    Network := "Test Network", DiamNetCoreURL := "http://localhost:11626",
    SkipCursorUpdate := false, HistoryRetentionCount := 0,
    IngestFailedTransactions := false, lock := false, current := none }

/-- A store with two connections and the one System `exampleSystem`. -/
def exampleWorld : World :=
  { dbs := [{ DB := 7, tx := none }, { DB := 8, tx := some 3 }],
    systems := [exampleSystem], sessions := [] }

/-- The Session that NewSession builds for the System `sys` at address `i`
when the store holds `n` connections before the call: the clone of the core
connection gets address `n`, the clone of the aurora connection `n + 1`. -/
def newSessionOf (sys : System) (i n : Nat) : Session :=
  { Config := sys.Config,
    Ingestion := some { DB := some (n + 1), builders := none },
    Network := sys.Network,
    DiamNetCoreURL := sys.DiamNetCoreURL,
    SkipCursorUpdate := sys.SkipCursorUpdate,
    Metrics := some i,
    AssetStats := some { CoreSession := some n, HistorySession := some (n + 1),
                         batchInsertBuilder := none, toUpdate := none, initOnce := false },
    Cursor := none, ClearExisting := false, Err := none, Ingested := 0 }

/-- A second System, with another cursor name, in a store of its own. -/
def otherWorld : World :=
  { exampleWorld with
    systems := [{ exampleSystem with
      Config := { exampleSystem.Config with CursorName := "AURORA2" } }] }

/-- The example System while its first Session, at address 0, runs. -/
def busySystem : System := { exampleSystem with current := some 0 }

/-- The example store after one Session was started on its System: the two
clones at addresses 2 and 3, the Session at address 0. -/
def busyWorld : World :=
  { dbs := exampleWorld.dbs ++ [{ DB := 7, tx := none }, { DB := 8, tx := none }],
    systems := [busySystem],
    sessions := [newSessionOf exampleSystem 0 2] }

/-- The invariant of a run on the System at address `i`: the System exists and
the Sessions that have not terminated are exactly the one `current` points to,
if any. -/
def Run.Exclusive (i : Nat) (r : Run) : Prop :=
  ∃ sys : System, r.world.systems[i]? = some sys ∧ r.active = sys.current.toList

end Ingest

/-! # Theorems -/

namespace Txnbuild

/-- What setTransactionFee does for a non-zero base fee: the XDR fee becomes
the product truncated to 32 bits, nothing else changes, no error. -/
theorem setTransactionFee_of_ne_zero (tx : Transaction) (h : tx.BaseFee ≠ 0) :
    tx.setTransactionFee =
      ({ tx with xdrTransaction :=
          { tx.xdrTransaction with
            Fee := (tx.BaseFee * tx.xdrTransaction.Operations.length) % 2 ^ 32 } }, none) := by
  simp [Transaction.setTransactionFee, h, toUint32]

/-- What setTransactionFee does for a zero base fee. -/
theorem setTransactionFee_of_zero (tx : Transaction) (h : tx.BaseFee = 0) :
    tx.setTransactionFee = (tx, some "base fee can not be zero") := by
  simp [Transaction.setTransactionFee, h]

/-- C7: SetDefaultFee never panics; afterwards the base fee is 100 if it was 0
and is unchanged otherwise, the XDR fee is the fee computed from that base fee
and the number of XDR operations, and every other field of the transaction
(and of its XDR transaction) is as before. -/
theorem SetDefaultFee_sets_default_only_if_unset (tx : Transaction) :
    tx.SetDefaultFee = Except.ok
      { tx with
        BaseFee := if tx.BaseFee = 0 then 100 else tx.BaseFee,
        xdrTransaction :=
          { tx.xdrTransaction with
            Fee := toUint32 ((if tx.BaseFee = 0 then 100 else tx.BaseFee) *
              tx.xdrTransaction.Operations.length) } } := by
  unfold Transaction.SetDefaultFee
  by_cases h : tx.BaseFee = 0
  · simp [h, Transaction.setTransactionFee]
  · simp [h, Transaction.setTransactionFee]

/-- The conversion to `int` keeps every value below `2^31` on both widths of
`int`. -/
theorem toInt_of_lt (intBits v : Nat) (hbits : intBits = 32 ∨ intBits = 64)
    (hv : v < 2 ^ (intBits - 1)) : toInt intBits v = (v : Int) := by
  rcases hbits with rfl | rfl
  · simp only [toInt] at *
    norm_num at hv ⊢
    omega
  · simp only [toInt] at *
    norm_num at hv ⊢
    omega

/-- C8, as stated, fails on both widths of `int`: with base fee 4294967295 (a
non-zero uint32) and two operations the XDR fee becomes 4294967294 and
TransactionFee returns 4294967294 where `int` has 64 bits and -2 where it has
32 bits, never 4294967295 * 2. -/
theorem TransactionFee_not_linear_at_max :
    maxFeeTx.BaseFee ≠ 0 ∧ maxFeeTx.BaseFee < 2 ^ 32 ∧
    maxFeeTx.xdrTransaction.Operations.length = 2 ∧
    (maxFeeTx.TransactionFee 64).1.xdrTransaction.Fee = 4294967294 ∧
    (maxFeeTx.TransactionFee 64).2 = 4294967294 ∧
    (maxFeeTx.TransactionFee 32).2 = -2 ∧
    (maxFeeTx.TransactionFee 64).2 ≠
      (maxFeeTx.BaseFee : Int) * (maxFeeTx.xdrTransaction.Operations.length : Int) ∧
    (maxFeeTx.TransactionFee 32).2 ≠
      (maxFeeTx.BaseFee : Int) * (maxFeeTx.xdrTransaction.Operations.length : Int) := by
  decide

/-- Where `int` has 32 bits a fee that fits the uint32 XDR fee but not the
`int` comes back negative: base fee 4294967295 with one operation is stored as
the XDR fee 4294967295 and returned as -1; where `int` has 64 bits it is
returned as 4294967295. -/
theorem TransactionFee_int32_wraps :
    (maxFeeOneOpTx.TransactionFee 32).1.xdrTransaction.Fee = 4294967295 ∧
    (maxFeeOneOpTx.TransactionFee 32).2 = -1 ∧
    (maxFeeOneOpTx.TransactionFee 64).2 = 4294967295 := by
  decide

/-- C8, amended: on a target whose `int` has 32 or 64 bits, when the base fee
is non-zero and base fee times the number of XDR operations fits both a uint32
and the non-negative range of that `int` (below 2^32, and below 2^31 where
`int` has 32 bits), TransactionFee returns exactly that product and stores it
as the XDR fee, changing nothing else; when the base fee is 0,
setTransactionFee returns an error and leaves the transaction, its XDR fee
included, unchanged, and TransactionFee returns 0. -/
theorem TransactionFee_linear_when_representable (intBits : Nat) (tx : Transaction) :
    (intBits = 32 ∨ intBits = 64 →
      tx.BaseFee ≠ 0 →
      tx.BaseFee * tx.xdrTransaction.Operations.length < 2 ^ 32 →
      tx.BaseFee * tx.xdrTransaction.Operations.length < 2 ^ (intBits - 1) →
      tx.TransactionFee intBits =
        ({ tx with xdrTransaction :=
            { tx.xdrTransaction with
              Fee := tx.BaseFee * tx.xdrTransaction.Operations.length } },
         (tx.BaseFee : Int) * (tx.xdrTransaction.Operations.length : Int))) ∧
    (tx.BaseFee = 0 →
      tx.setTransactionFee = (tx, some "base fee can not be zero") ∧
      tx.TransactionFee intBits = (tx, 0)) := by
  refine ⟨?_, ?_⟩
  · intro hbits h0 hfit hint
    simp only [Transaction.TransactionFee, setTransactionFee_of_ne_zero tx h0,
      Nat.mod_eq_of_lt hfit, toInt_of_lt intBits _ hbits hint]
    simp
  · intro hz
    simp [Transaction.TransactionFee, setTransactionFee_of_zero tx hz]

/-- C8, amended, at base fee 100 with two operations: the fee is 200 on both
widths of `int`; and at base fee 0: an error, the transaction unchanged,
fee 0. -/
theorem TransactionFee_linear_when_representable_witness :
    smallFeeTx.BaseFee ≠ 0 ∧
    smallFeeTx.BaseFee * smallFeeTx.xdrTransaction.Operations.length < 2 ^ 32 ∧
    smallFeeTx.BaseFee * smallFeeTx.xdrTransaction.Operations.length < 2 ^ (32 - 1) ∧
    (smallFeeTx.TransactionFee 32).2 = 200 ∧
    (smallFeeTx.TransactionFee 64).2 = 200 ∧
    (smallFeeTx.TransactionFee 32).1.xdrTransaction.Fee = 200 ∧
    zeroFeeTx.BaseFee = 0 ∧
    zeroFeeTx.setTransactionFee = (zeroFeeTx, some "base fee can not be zero") ∧
    zeroFeeTx.TransactionFee 32 = (zeroFeeTx, 0) := by
  have h32 := (TransactionFee_linear_when_representable 32 smallFeeTx).1
    (Or.inl rfl) (by decide) (by decide) (by decide)
  have h64 := (TransactionFee_linear_when_representable 64 smallFeeTx).1
    (Or.inr rfl) (by decide) (by decide) (by decide)
  have hz := (TransactionFee_linear_when_representable 32 zeroFeeTx).2 rfl
  refine ⟨by decide, by decide, by decide, ?_, ?_, ?_, rfl, hz.1, hz.2⟩
  · rw [h32]; decide
  · rw [h64]; decide
  · rw [h32]; decide

/-- The four bytes that `copy(hint[:], preimageHash[28:])` copies out of a
32-byte hash. -/
theorem hint_bytes (v : Mathlib.Vector Byte 32) :
    (v.toList.drop 28).take 4 = [v.get 28, v.get 29, v.get 30, v.get 31] := by
  have hl : v.toList.length = 32 := v.toList_length
  rw [List.drop_eq_getElem_cons (by omega : 28 < v.toList.length),
      List.drop_eq_getElem_cons (by omega : 29 < v.toList.length),
      List.drop_eq_getElem_cons (by omega : 30 < v.toList.length),
      List.drop_eq_getElem_cons (by omega : 31 < v.toList.length)]
  simp only [Mathlib.Vector.get_eq_get, List.take_succ_cons, List.take_zero,
    List.get_eq_getElem]
  rfl

/-- C9: SignHashX returns an error exactly when the preimage is longer than 64
bytes; on error the envelope's signatures are as before; on success they are
the earlier signatures followed by one DecoratedSignature whose Signature is
the preimage and whose Hint is bytes 28, 29, 30, 31 of the hash of the
preimage. -/
theorem SignHashX_error_iff_and_appends (sum256 : List Byte → Mathlib.Vector Byte 32)
    (tx : Transaction) (preimage : List Byte) :
    ((tx.SignHashX sum256 preimage).2.isSome = true ↔ 64 < preimage.length) ∧
    (tx.SignHashX sum256 preimage).1.signatures =
      (if 64 < preimage.length then tx.signatures
       else tx.signatures ++
        [{ Hint := [(sum256 preimage).get 28, (sum256 preimage).get 29,
                    (sum256 preimage).get 30, (sum256 preimage).get 31],
           Signature := preimage }]) := by
  unfold Transaction.SignHashX Signature.XDRMaxSize
  by_cases h : 64 < preimage.length
  · cases henv : tx.xdrEnvelope <;>
      simp [h, henv, Transaction.signatures, TransactionEnvelope.zero]
  · cases henv : tx.xdrEnvelope <;>
      simp [h, henv, Transaction.signatures, TransactionEnvelope.zero, hint_bytes]

/-- SignHashX at the boundary, with a hash function that returns 32 zero
bytes: a preimage of 64 bytes is accepted and signed, one of 65 bytes is
refused and nothing is signed. -/
theorem SignHashX_boundary :
    (smallFeeTx.SignHashX (fun _ => Mathlib.Vector.replicate 32 0) (List.replicate 64 1)).2
      = none ∧
    (smallFeeTx.SignHashX (fun _ => Mathlib.Vector.replicate 32 0)
      (List.replicate 64 1)).1.signatures
      = [{ Hint := [0, 0, 0, 0], Signature := List.replicate 64 1 }] ∧
    (smallFeeTx.SignHashX (fun _ => Mathlib.Vector.replicate 32 0) (List.replicate 65 1)).2
      = some "preimage cannnot be more than 64 bytes" ∧
    (smallFeeTx.SignHashX (fun _ => Mathlib.Vector.replicate 32 0)
      (List.replicate 65 1)).1.signatures = [] := by
  decide

end Txnbuild

namespace Friendbot

/-- C6 at the account with sequence number 5: the call returns 6 and a nil
error, and the account's own Sequence is still 5 after the call. -/
theorem IncrementSequenceNumber_leaves_caller_account :
    (Account.IncrementSequenceNumber { AccountID := "GA", Sequence := 5 }).2 = (6, none) ∧
    (Account.IncrementSequenceNumber { AccountID := "GA", Sequence := 5 }).1.Sequence = 5 := by
  decide

/-- For every account, the call leaves the caller's account as it was. -/
theorem IncrementSequenceNumber_frame (a : Account) :
    a.IncrementSequenceNumber.1 = a := rfl

end Friendbot

namespace Ingest

/-- The result of NewSession, in full, for a System whose two connections
exist: two connections are added to the store, then one Session. -/
theorem NewSession_eq (w : World) (i : Nat) (sys : System) (c a : Nat) (co ao : DbSession)
    (hsys : w.systems[i]? = some sys)
    (hc : sys.CoreDB = some c) (hco : w.dbs[c]? = some co)
    (ha : sys.AuroraDB = some a) (hao : w.dbs[a]? = some ao) :
    NewSession w i = some
      ({ dbs := w.dbs ++ [{ DB := co.DB, tx := none }] ++ [{ DB := ao.DB, tx := none }],
         systems := w.systems,
         sessions := w.sessions ++ [newSessionOf sys i w.dbs.length] },
       w.sessions.length) := by
  have halt : a < w.dbs.length := (List.getElem?_eq_some_iff.mp hao).1
  have hao1 : (w.dbs ++ [{ DB := co.DB, tx := none }])[a]? = some ao := by
    rw [List.getElem?_append_left halt]; exact hao
  simp [NewSession, DbSession.Clone, hsys, hc, hco, ha, hao1, newSessionOf]

/-- The result of NewCursor, in full, for a System that exists. -/
theorem NewCursor_eq (w : World) (first last : Int) (i : Nat) (sys : System)
    (hsys : w.systems[i]? = some sys) :
    NewCursor w first last i = some
      { FirstLedger := first, LastLedger := last, CoreDB := sys.CoreDB,
        Name := sys.Config.CursorName, Metrics := some i,
        AssetStats := none, Err := none, lg := 0, tx := 0, op := 0, data := none } := by
  simp only [NewCursor, hsys]

/-- C3, as stated, fails: NewCursor(5, 3, i) on a System that exists returns
a Cursor with FirstLedger = 5 and LastLedger = 3. -/
theorem NewCursor_range_not_ordered :
    isInt32 5 ∧ isInt32 3 ∧
    ∃ c : Cursor, NewCursor exampleWorld 5 3 0 = some c ∧ ¬ (c.FirstLedger ≤ c.LastLedger) :=
  ⟨by decide, by decide, _, rfl, by decide⟩

/-- C3, amended: NewCursor keeps both bounds as they are given, without
checking or reordering them, so the Cursor it returns has
FirstLedger <= LastLedger exactly when first <= last. -/
theorem NewCursor_range_ordered_iff (w : World) (first last : Int) (i : Nat) (sys : System)
    (hfirst : isInt32 first) (hlast : isInt32 last)
    (hsys : w.systems[i]? = some sys) :
    ∃ c : Cursor, NewCursor w first last i = some c ∧
      isInt32 c.FirstLedger ∧ isInt32 c.LastLedger ∧
      c.FirstLedger = first ∧ c.LastLedger = last ∧
      (c.FirstLedger ≤ c.LastLedger ↔ first ≤ last) := by
  exact ⟨_, NewCursor_eq w first last i sys hsys, hfirst, hlast, rfl, rfl, Iff.rfl⟩

/-- C3, amended, on the range 5..10 of the example System. -/
theorem NewCursor_range_ordered_iff_witness :
    ∃ c : Cursor, NewCursor exampleWorld 5 10 0 = some c ∧
      isInt32 c.FirstLedger ∧ isInt32 c.LastLedger ∧
      c.FirstLedger = 5 ∧ c.LastLedger = 10 ∧
      (c.FirstLedger ≤ c.LastLedger ↔ (5 : Int) ≤ 10) :=
  NewCursor_range_ordered_iff exampleWorld 5 10 0 exampleSystem (by decide) (by decide) rfl

/-- C5: for every System i that exists, NewCursor(first, last, i) returns a
Cursor with the given bounds, the System's cursor name and core connection,
Metrics pointing to the System's metrics, no error, no asset stats, position
indices zero and no loaded bundle; and a System with a different CursorName
gets a Cursor with a different Name. -/
theorem NewCursor_fields (w : World) (first last : Int) (i : Nat) (sys : System)
    (hsys : w.systems[i]? = some sys) :
    ∃ c : Cursor, NewCursor w first last i = some c ∧
      c.FirstLedger = first ∧ c.LastLedger = last ∧
      c.Name = sys.Config.CursorName ∧ c.CoreDB = sys.CoreDB ∧
      c.Metrics = some i ∧ w.metricsAt c.Metrics = some sys.Metrics ∧
      c.Err = none ∧ c.AssetStats = none ∧
      c.lg = 0 ∧ c.tx = 0 ∧ c.op = 0 ∧ c.data = none ∧
      (∀ (w2 : World) (f2 l2 : Int) (j : Nat) (sys2 : System),
        w2.systems[j]? = some sys2 →
        sys2.Config.CursorName ≠ sys.Config.CursorName →
        ∃ c2 : Cursor, NewCursor w2 f2 l2 j = some c2 ∧ c2.Name ≠ c.Name) := by
  refine ⟨_, NewCursor_eq w first last i sys hsys, rfl, rfl, rfl, rfl, rfl, ?_, rfl, rfl, rfl,
    rfl, rfl, rfl, ?_⟩
  · simp [World.metricsAt, hsys]
  · intro w2 f2 l2 j sys2 h2 hne
    exact ⟨_, NewCursor_eq w2 f2 l2 j sys2 h2, hne⟩

/-- C5 on the example System with the range 5..10, and against a System with
another cursor name. -/
theorem NewCursor_fields_witness :
    ∃ c : Cursor, NewCursor exampleWorld 5 10 0 = some c ∧
      c.FirstLedger = 5 ∧ c.LastLedger = 10 ∧ c.Name = "AURORA" ∧ c.CoreDB = some 0 ∧
      c.Metrics = some 0 ∧ c.Err = none ∧ c.lg = 0 ∧ c.tx = 0 ∧ c.op = 0 ∧ c.data = none ∧
      ∃ c2 : Cursor, NewCursor otherWorld 1 2 0 = some c2 ∧ c2.Name ≠ c.Name := by
  obtain ⟨c, hc, h1, h2, h3, h4, h5, _, h7, _, h9, h10, h11, h12, hdiff⟩ :=
    NewCursor_fields exampleWorld 5 10 0 exampleSystem rfl
  exact ⟨c, hc, h1, h2, h3, h4, h5, h7, h9, h10, h11, h12,
    hdiff otherWorld 1 2 0 _ rfl (by decide)⟩

/-- C4: for every System i that exists and whose two connections exist, the
Session NewSession(i) returns is a new object of the store, its Ingestion has a
nil builders map, its AssetStats a nil pending map and no batch builder,
Ingested is 0, Err is nil, Cursor is nil, ClearExisting is false, its Config,
Network, DiamNetCoreURL and SkipCursorUpdate are the System's and its Metrics
points to the System's metrics. -/
theorem NewSession_fresh (w : World) (i : Nat) (sys : System) (c a : Nat) (co ao : DbSession)
    (hsys : w.systems[i]? = some sys)
    (hc : sys.CoreDB = some c) (hco : w.dbs[c]? = some co)
    (ha : sys.AuroraDB = some a) (hao : w.dbs[a]? = some ao) :
    ∃ (w1 : World) (p : Nat) (s : Session) (ing : Ingestion) (st : AssetStats),
      NewSession w i = some (w1, p) ∧
      w.sessions[p]? = none ∧ w1.sessions[p]? = some s ∧
      s.Ingestion = some ing ∧ ing.builders = none ∧
      s.AssetStats = some st ∧ st.toUpdate = none ∧ st.batchInsertBuilder = none ∧
      st.initOnce = false ∧
      s.Ingested = 0 ∧ s.Err = none ∧ s.Cursor = none ∧ s.ClearExisting = false ∧
      s.Config = sys.Config ∧ s.Network = sys.Network ∧
      s.DiamNetCoreURL = sys.DiamNetCoreURL ∧ s.SkipCursorUpdate = sys.SkipCursorUpdate ∧
      s.Metrics = some i ∧ w1.metricsAt s.Metrics = some sys.Metrics := by
  refine ⟨_, _, newSessionOf sys i w.dbs.length, _, _,
    NewSession_eq w i sys c a co ao hsys hc hco ha hao, ?_, ?_, rfl, rfl,
    rfl, rfl, rfl, rfl, rfl, rfl, rfl, rfl, rfl, rfl, rfl, rfl, rfl, ?_⟩
  · simp
  · simp
  · simp [World.metricsAt, hsys, newSessionOf]

/-- C4 on the example System. -/
theorem NewSession_fresh_witness :
    ∃ (w1 : World) (p : Nat) (s : Session) (ing : Ingestion) (st : AssetStats),
      NewSession exampleWorld 0 = some (w1, p) ∧
      exampleWorld.sessions[p]? = none ∧ w1.sessions[p]? = some s ∧
      s.Ingestion = some ing ∧ ing.builders = none ∧
      s.AssetStats = some st ∧ st.toUpdate = none ∧ st.batchInsertBuilder = none ∧
      st.initOnce = false ∧
      s.Ingested = 0 ∧ s.Err = none ∧ s.Cursor = none ∧ s.ClearExisting = false ∧
      s.Config = exampleSystem.Config ∧ s.Network = exampleSystem.Network ∧
      s.DiamNetCoreURL = exampleSystem.DiamNetCoreURL ∧
      s.SkipCursorUpdate = exampleSystem.SkipCursorUpdate ∧
      s.Metrics = some 0 ∧ w1.metricsAt s.Metrics = some exampleSystem.Metrics :=
  NewSession_fresh exampleWorld 0 exampleSystem 0 1 _ _ rfl rfl rfl rfl rfl

/-- C2: for every System i that exists and whose two connections exist,
NewSession(i) adds two connections to the store, at addresses not in use
before: one talks to the database of i.CoreDB and is the Session's
AssetStats.CoreSession, the other talks to the database of i.AuroraDB and is
both the Session's Ingestion.DB and its AssetStats.HistorySession; neither is
the address of i.CoreDB or i.AuroraDB; every connection that existed before,
i.CoreDB and i.AuroraDB among them, and every System are as before. -/
theorem NewSession_clones_connections (w : World) (i : Nat) (sys : System) (c a : Nat)
    (co ao : DbSession)
    (hsys : w.systems[i]? = some sys)
    (hc : sys.CoreDB = some c) (hco : w.dbs[c]? = some co)
    (ha : sys.AuroraDB = some a) (hao : w.dbs[a]? = some ao) :
    ∃ (w1 : World) (p : Nat) (s : Session) (ing : Ingestion) (st : AssetStats)
      (cdb hdb : Nat),
      NewSession w i = some (w1, p) ∧ w1.sessions[p]? = some s ∧
      s.Ingestion = some ing ∧ s.AssetStats = some st ∧
      ing.DB = some hdb ∧ st.HistorySession = some hdb ∧ st.CoreSession = some cdb ∧
      w1.dbs[cdb]? = some { DB := co.DB, tx := none } ∧
      w1.dbs[hdb]? = some { DB := ao.DB, tx := none } ∧
      w.dbs[cdb]? = none ∧ w.dbs[hdb]? = none ∧ cdb ≠ hdb ∧
      cdb ≠ c ∧ cdb ≠ a ∧ hdb ≠ c ∧ hdb ≠ a ∧
      (∀ (k : Nat) (x : DbSession), w.dbs[k]? = some x → w1.dbs[k]? = some x) ∧
      w1.dbs[c]? = some co ∧ w1.dbs[a]? = some ao ∧
      w1.systems = w.systems ∧ w1.systems[i]? = some sys ∧
      (∀ (q : Nat) (x : Session), w.sessions[q]? = some x → w1.sessions[q]? = some x) := by
  have hclt : c < w.dbs.length := (List.getElem?_eq_some_iff.mp hco).1
  have halt : a < w.dbs.length := (List.getElem?_eq_some_iff.mp hao).1
  have hframe : ∀ (k : Nat) (x : DbSession), w.dbs[k]? = some x →
      (w.dbs ++ [{ DB := co.DB, tx := none }] ++ [{ DB := ao.DB, tx := none }])[k]? =
        some x := by
    intro k x hk
    have hklt : k < w.dbs.length := (List.getElem?_eq_some_iff.mp hk).1
    rw [List.append_assoc, List.getElem?_append_left hklt]; exact hk
  refine ⟨_, _, newSessionOf sys i w.dbs.length, _, _, w.dbs.length, w.dbs.length + 1,
    NewSession_eq w i sys c a co ao hsys hc hco ha hao, ?_, rfl, rfl, rfl, rfl, rfl,
    ?_, ?_, ?_, ?_, ?_, ?_, ?_, ?_, ?_, hframe, hframe c co hco, hframe a ao hao, rfl, hsys,
    ?_⟩
  · simp
  · show (w.dbs ++ [{ DB := co.DB, tx := none }] ++ [{ DB := ao.DB, tx := none }])[w.dbs.length]?
      = some { DB := co.DB, tx := none }
    rw [List.append_assoc, List.getElem?_append_right (Nat.le_refl _)]
    simp
  · show (w.dbs ++ [{ DB := co.DB, tx := none }] ++
      [{ DB := ao.DB, tx := none }])[w.dbs.length + 1]? = some { DB := ao.DB, tx := none }
    rw [List.append_assoc, List.getElem?_append_right (Nat.le_add_right _ 1)]
    simp
  · simp
  · simp
  · omega
  · omega
  · omega
  · omega
  · omega
  · intro q x hq
    have hqlt : q < w.sessions.length := (List.getElem?_eq_some_iff.mp hq).1
    show (w.sessions ++ [newSessionOf sys i w.dbs.length])[q]? = some x
    rw [List.getElem?_append_left hqlt]; exact hq

/-- C2 on the example System: the clones get addresses 2 and 3, and the
aurora connection at address 1 stays bound to its transaction. -/
theorem NewSession_clones_connections_witness :
    ∃ (w1 : World) (p : Nat) (s : Session) (ing : Ingestion) (st : AssetStats)
      (cdb hdb : Nat),
      NewSession exampleWorld 0 = some (w1, p) ∧ w1.sessions[p]? = some s ∧
      s.Ingestion = some ing ∧ s.AssetStats = some st ∧
      ing.DB = some hdb ∧ st.HistorySession = some hdb ∧ st.CoreSession = some cdb ∧
      w1.dbs[cdb]? = some { DB := 7, tx := none } ∧
      w1.dbs[hdb]? = some { DB := 8, tx := none } ∧
      exampleWorld.dbs[cdb]? = none ∧ exampleWorld.dbs[hdb]? = none ∧ cdb ≠ hdb ∧
      cdb ≠ 0 ∧ cdb ≠ 1 ∧ hdb ≠ 0 ∧ hdb ≠ 1 ∧
      (∀ (k : Nat) (x : DbSession), exampleWorld.dbs[k]? = some x → w1.dbs[k]? = some x) ∧
      w1.dbs[0]? = some { DB := 7, tx := none } ∧
      w1.dbs[1]? = some { DB := 8, tx := some 3 } ∧
      w1.systems = exampleWorld.systems ∧ w1.systems[0]? = some exampleSystem ∧
      (∀ (q : Nat) (x : Session),
        exampleWorld.sessions[q]? = some x → w1.sessions[q]? = some x) :=
  NewSession_clones_connections exampleWorld 0 exampleSystem 0 1 _ _ rfl rfl rfl rfl rfl

/-- Cloning a connection leaves the Systems of the store as they are. -/
theorem Clone_systems {w w1 : World} {p q : DbPtr}
    (h : DbSession.Clone w p = some (w1, q)) : w1.systems = w.systems := by
  unfold DbSession.Clone at h
  cases p with
  | none => simp at h
  | some a =>
    cases hs : w.dbs[a]? with
    | none => simp [hs] at h
    | some s =>
      simp only [hs, Option.some.injEq, Prod.mk.injEq] at h
      rw [← h.1]

/-- NewSession leaves the Systems of the store as they are. -/
theorem NewSession_systems {w w1 : World} {i p : Nat}
    (h : NewSession w i = some (w1, p)) : w1.systems = w.systems := by
  unfold NewSession at h
  cases hs : w.systems[i]? with
  | none => simp [hs] at h
  | some sys =>
    simp only [hs] at h
    cases hc : DbSession.Clone w sys.CoreDB with
    | none => simp [hc] at h
    | some r1 =>
      obtain ⟨w2, cdb⟩ := r1
      simp only [hc] at h
      cases ha : DbSession.Clone w2 sys.AuroraDB with
      | none => simp [ha] at h
      | some r2 =>
        obtain ⟨w3, hdb⟩ := r2
        simp only [ha, Option.some.injEq, Prod.mk.injEq] at h
        rw [← h.1]
        show w3.systems = w.systems
        rw [Clone_systems ha, Clone_systems hc]

/-- A start on a System whose `current` points to a Session is refused: the
outcome is busy and the store is the one before the attempt. -/
theorem StartSession_busy {w : World} {i : Nat} {sys : System} {s : Nat}
    (hsys : w.systems[i]? = some sys) (hcur : sys.current = some s) :
    System.StartSession w i = some (w, StartOutcome.busy) := by
  simp [System.StartSession, hsys, hcur]

/-- Every event keeps the invariant. -/
theorem step_exclusive (i : Nat) (r : Run) (ev : Event) (h : Run.Exclusive i r) :
    Run.Exclusive i (Run.step i r ev) := by
  obtain ⟨sys, hsys, hact⟩ := h
  have hi : i < r.world.systems.length := (List.getElem?_eq_some_iff.mp hsys).1
  cases ev with
  | start =>
    cases hcur : sys.current with
    | some s =>
      have hb := StartSession_busy hsys hcur
      exact ⟨sys, by simp [Run.step, hb, hsys], by simp [Run.step, hb, hact]⟩
    | none =>
      cases hn : NewSession r.world i with
      | none =>
        have hst : System.StartSession r.world i = none := by
          simp [System.StartSession, hsys, hcur, hn]
        exact ⟨sys, by simp [Run.step, hst, hsys], by simp [Run.step, hst, hact]⟩
      | some res =>
        obtain ⟨w1, p⟩ := res
        have hst : System.StartSession r.world i =
            some ({ w1 with systems := w1.systems.set i { sys with current := some p } },
                  StartOutcome.started p) := by
          simp [System.StartSession, hsys, hcur, hn]
        have hlen : i < w1.systems.length := by rw [NewSession_systems hn]; exact hi
        refine ⟨{ sys with current := some p }, ?_, ?_⟩
        · simp [Run.step, hst, hlen]
        · simp [Run.step, hst, hact, hcur]
  | finish =>
    cases hcur : sys.current with
    | none =>
      exact ⟨sys, by simp [Run.step, hsys, hcur], by simp [Run.step, hsys, hcur, hact]⟩
    | some s =>
      refine ⟨{ sys with current := none }, ?_, ?_⟩
      · simp [Run.step, hsys, hcur, System.FinishSession, hi]
      · simp [Run.step, hsys, hcur, System.FinishSession, hact]

/-- Every sequence of events keeps the invariant. -/
theorem exec_exclusive (i : Nat) (evs : List Event) (r : Run) (h : Run.Exclusive i r) :
    Run.Exclusive i (Run.exec i r evs) := by
  induction evs generalizing r with
  | nil => exact h
  | cons ev rest ih => exact ih (Run.step i r ev) (step_exclusive i r ev h)

/-- C1: on every System that exists, an attempt to start a Session while
`current` points to a Session returns at once with the busy outcome and
leaves the store, its Sessions included, as it was; and after every sequence
of starts and terminations on a System that began with no Session, at most one
Session that has not terminated exists. -/
theorem run_exclusivity (w : World) (i : Nat) (sys : System)
    (hsys : w.systems[i]? = some sys) :
    (∀ s : Nat, sys.current = some s →
      System.StartSession w i = some (w, StartOutcome.busy)) ∧
    (sys.current = none → ∀ evs : List Event,
      (Run.exec i { world := w, active := [] } evs).active.length ≤ 1 ∧
      ∀ s : Nat, s ∈ (Run.exec i { world := w, active := [] } evs).active →
        System.StartSession (Run.exec i { world := w, active := [] } evs).world i =
          some ((Run.exec i { world := w, active := [] } evs).world, StartOutcome.busy)) := by
  refine ⟨fun s hcur => StartSession_busy hsys hcur, ?_⟩
  intro hnone evs
  obtain ⟨sys1, hsys1, hact1⟩ :=
    exec_exclusive i evs { world := w, active := [] } ⟨sys, hsys, by simp [hnone]⟩
  refine ⟨?_, ?_⟩
  · rw [hact1]; cases sys1.current <;> simp
  · intro s hs
    rw [hact1] at hs
    cases hcur : sys1.current with
    | none => simp [hcur] at hs
    | some s1 => exact StartSession_busy hsys1 hcur

/-- C1 on the example System: one start succeeds and leads to `busyWorld`;
there a second start is refused with busy and the store stays `busyWorld`;
after start, start, finish, start exactly one Session, the one at address 1,
has not terminated. -/
theorem run_exclusivity_witness :
    Run.exec 0 { world := exampleWorld, active := [] } [Event.start] =
      { world := busyWorld, active := [0] } ∧
    System.StartSession busyWorld 0 = some (busyWorld, StartOutcome.busy) ∧
    (Run.exec 0 { world := exampleWorld, active := [] }
      [Event.start, Event.start, Event.finish, Event.start]).active = [1] ∧
    (Run.exec 0 { world := exampleWorld, active := [] }
      [Event.start, Event.start, Event.finish, Event.start]).active.length ≤ 1 :=
  ⟨by decide,
   (run_exclusivity busyWorld 0 busySystem rfl).1 0 rfl,
   by decide,
   ((run_exclusivity exampleWorld 0 exampleSystem rfl).2 rfl
      [Event.start, Event.start, Event.finish, Event.start]).1⟩

/-- NewSession itself does not look at `current`: called directly on the
System of `busyWorld`, whose Session at address 0 runs, it still returns a new
Session, at address 1. The exclusion is the work of the operation that starts
a Session. -/
theorem NewSession_does_not_check_current :
    busySystem.current = some 0 ∧
    ∃ w1 : World, NewSession busyWorld 0 = some (w1, 1) ∧ w1.sessions.length = 2 :=
  ⟨rfl, _, rfl, rfl⟩

end Ingest
